import Mathlib

/-! The SEGA (genesis/megadrive) opcode dictionary:
a verification development over `shared/shared_dict_sega.h`.

The header is a list of object-like defines, one per opcode.  Each define is
embedded as a natural-number constant carrying the header's name, and the
header as a whole is embedded as the list of its `(name, value)` lines in
source order.
-/

namespace Sega

/-! ## The defines of `shared_dict_sega.h` -/

/-- Header line 21: `#define GEN_SET_ADDR 0`
(oper=A1-15, update firmware address variable). -/
def GEN_SET_ADDR : Nat := 0

/-- Header line 23: `#define GEN_ROM_RD 1`
(oper=A1-A16, update firmware address var ie GEN_SET_ADDR; returns a 16bit word). -/
def GEN_ROM_RD : Nat := 1

/-- Header line 27: `#define GEN_SET_BANK 2`
(GENESIS ADDR A17-23 along with #LO_MEM and #TIME). -/
def GEN_SET_BANK : Nat := 2

/-- Header line 30: `#define GEN_WR_LO 3`
(miscdata=D0-7, oper=A1-A16, update firmware address var ie GEN_SET_ADDR). -/
def GEN_WR_LO : Nat := 3

/-- Header line 32: `#define GEN_WR_HI 4`
(miscdata=D8-15, oper=A1-A16, update firmware address var ie GEN_SET_ADDR). -/
def GEN_WR_HI : Nat := 4

/-- Header line 34: `#define GEN_FLASH_WR_ADDROFF 5`
(oper=D0-D15, miscdata=addroffset, update firmware address var ie GEN_SET_ADDR). -/
def GEN_FLASH_WR_ADDROFF : Nat := 5

/-- Header line 37: `#define GEN_SST_FLASH_WR_ADDROFF 6`. -/
def GEN_SST_FLASH_WR_ADDROFF : Nat := 6

/-- The dictionary: every opcode define of the header, as `(name, value)`,
in the order the header lists them. -/
def sega_dictionary : List (String × Nat) :=
  [ ("GEN_SET_ADDR", GEN_SET_ADDR),
    ("GEN_ROM_RD", GEN_ROM_RD),
    ("GEN_SET_BANK", GEN_SET_BANK),
    ("GEN_WR_LO", GEN_WR_LO),
    ("GEN_WR_HI", GEN_WR_HI),
    ("GEN_FLASH_WR_ADDROFF", GEN_FLASH_WR_ADDROFF),
    ("GEN_SST_FLASH_WR_ADDROFF", GEN_SST_FLASH_WR_ADDROFF) ]

/-- The numeric values the dictionary defines, in header order. -/
def opcode_values : List Nat :=
  sega_dictionary.map Prod.snd

/-- The names the dictionary defines, in header order. -/
def opcode_names : List String :=
  sega_dictionary.map Prod.fst

/-- The opcodes whose header comment (or, for the SST variant, whose role as a
variant of `GEN_FLASH_WR_ADDROFF`) makes them cartridge data accesses that go
with an address update. -/
def data_opcodes : List Nat :=
  [GEN_ROM_RD, GEN_WR_LO, GEN_WR_HI, GEN_FLASH_WR_ADDROFF, GEN_SST_FLASH_WR_ADDROFF]

/-- The opcodes that only set a part of the address: the low lines
(`GEN_SET_ADDR`) or the bank lines (`GEN_SET_BANK`). -/
def address_setting_opcodes : List Nat :=
  [GEN_SET_ADDR, GEN_SET_BANK]

/-! ## Address/Bank State

The firmware side of the dictionary (`firmware/source/sega.c`, named by the
header) is not part of the source at hand; the state and the dispatcher below
are modelled from the specification of that module. -/

/-- Modelled from the spec: the Address/Bank State of the firmware module
`sega.c` (absent from the source): "a low portion (A1-A16, set by
GEN_SET_ADDR) and a high portion (A17-A23 plus fixed #LO_MEM/#TIME control
lines, set by GEN_SET_BANK)".  Each half holds a 16-bit operand. -/
structure AddressBankState where
  low : Nat
  high : Nat
deriving DecidableEq, Repr

/-- Modelled from the spec: `set_low_address(bits: 16)` of the absent `sega.c`:
"stores A1-A16 into the low half of the address register. No error conditions;
always succeeds."  A value wider than 16 bits is truncated. -/
def set_low_address (s : AddressBankState) (bits : Nat) : AddressBankState :=
  { s with low := bits % 2 ^ 16 }

/-- Modelled from the spec: `set_bank(bits: 16)` of the absent `sega.c`:
"stores A17-A23 and fixed control-line flags (#LO_MEM, #TIME) into the high
half. No error conditions."  A value wider than 16 bits is truncated. -/
def set_bank (s : AddressBankState) (bits : Nat) : AddressBankState :=
  { s with high := bits % 2 ^ 16 }

/-- Modelled from the spec: `current_address() -> 24-bit value` of the absent
`sega.c`: "composes low+high halves; pure read, no side effect."  The layout,
which the spec leaves to the implementer, is fixed here as: line A1 is bit 0,
the low half gives A1-A16 (bits 0..15), the seven low bits of the high half
give A17-A23 (bits 16..22); the remaining bits of the high half are the
control flags and are no part of the address. -/
def current_address (s : AddressBankState) : Nat :=
  (s.high % 2 ^ 7) * 2 ^ 16 + s.low % 2 ^ 16

/-- Bits A1-A16 of an address value (bits 0..15 in the layout of
`current_address`). -/
def bits_A1_A16 (addr : Nat) : Nat :=
  addr % 2 ^ 16

/-- Bits A17-A23 of an address value (bits 16..22 in the layout of
`current_address`). -/
def bits_A17_A23 (addr : Nat) : Nat :=
  addr / 2 ^ 16 % 2 ^ 7

/-! ## Opcode Dispatcher -/

/-- Modelled from the spec: the status of a `dispatch` call of the absent
`sega.c`: success, or one of the error kinds of the error handling design. -/
inductive Status where
  | OK
  | UnsupportedOpcode
  | OperandOutOfRange
  | BusFault
  | TransportFault
deriving DecidableEq, Repr

/-- Modelled from the spec: the external Bus Driver, which "performs physical
read/write given current state".  It is a parameter of the dispatcher; `β` is
the cartridge it drives.  A read gives the two data bytes of one 16-bit word,
a write gives the cartridge after the write; `none` is a reported bus
failure. -/
structure BusDriver (β : Type) where
  rom_rd : β → Nat → Option (Nat × Nat)
  wr_lo : β → Nat → Nat → Option β
  wr_hi : β → Nat → Nat → Option β
  flash_wr : β → Nat → Nat → Option β
  sst_flash_wr : β → Nat → Nat → Option β

/-- Modelled from the spec: what `dispatch` returns, `(status_code,
data_bytes)`, together with the Address/Bank State and the cartridge after the
call (the state is passed explicitly). -/
structure DispatchResult (β : Type) where
  status : Status
  data : List Nat
  state : AddressBankState
  bus : β

/-- Modelled from the spec: `dispatch(opcode, operand, miscdata)` of the absent
`sega.c`, one branch per row of the dispatcher table.
* `GEN_SET_ADDR`: `set_low_address(operand)`; status OK, no data.
* `GEN_ROM_RD`: operand is A1-A16 (address update): latch address, read one
  16-bit word via the Bus Driver; status code and 2 bytes of data.
* `GEN_SET_BANK`: `set_bank(operand)`; status OK, no data.
* `GEN_WR_LO` / `GEN_WR_HI`: operand is A1-A16 (address update), miscdata is
  the data byte, written at the current address.
* `GEN_FLASH_WR_ADDROFF`: operand is the data word, miscdata the address
  offset; write at `current_address() + miscdata`.
* `GEN_SST_FLASH_WR_ADDROFF`: same structural effect as opcode 5, through the
  driver's SST entry.
  For these two opcodes the table names no address operand and the state is
  left as it is here; the header comment of `GEN_FLASH_WR_ADDROFF` also carries
  the words "update firmware address var", without saying to what.
* any other opcode: `UnsupportedOpcode`, no state mutated.
Operands and miscdata are truncated to their declared width.  On a `BusFault`
the "Address/Bank State remains as it was before the call". -/
def dispatch {β : Type} (drv : BusDriver β) (s : AddressBankState) (bus : β)
    (opcode operand miscdata : Nat) : DispatchResult β :=
  if opcode = GEN_SET_ADDR then
    { status := Status.OK, data := [], state := set_low_address s operand, bus := bus }
  else if opcode = GEN_ROM_RD then
    match drv.rom_rd bus (current_address (set_low_address s operand)) with
    | some (d0, d1) =>
      { status := Status.OK, data := [d0, d1], state := set_low_address s operand, bus := bus }
    | none => { status := Status.BusFault, data := [], state := s, bus := bus }
  else if opcode = GEN_SET_BANK then
    { status := Status.OK, data := [], state := set_bank s operand, bus := bus }
  else if opcode = GEN_WR_LO then
    match drv.wr_lo bus (current_address (set_low_address s operand)) (miscdata % 2 ^ 8) with
    | some bus1 =>
      { status := Status.OK, data := [], state := set_low_address s operand, bus := bus1 }
    | none => { status := Status.BusFault, data := [], state := s, bus := bus }
  else if opcode = GEN_WR_HI then
    match drv.wr_hi bus (current_address (set_low_address s operand)) (miscdata % 2 ^ 8) with
    | some bus1 =>
      { status := Status.OK, data := [], state := set_low_address s operand, bus := bus1 }
    | none => { status := Status.BusFault, data := [], state := s, bus := bus }
  else if opcode = GEN_FLASH_WR_ADDROFF then
    match drv.flash_wr bus (current_address s + miscdata % 2 ^ 16) (operand % 2 ^ 16) with
    | some bus1 => { status := Status.OK, data := [], state := s, bus := bus1 }
    | none => { status := Status.BusFault, data := [], state := s, bus := bus }
  else if opcode = GEN_SST_FLASH_WR_ADDROFF then
    match drv.sst_flash_wr bus (current_address s + miscdata % 2 ^ 16) (operand % 2 ^ 16) with
    | some bus1 => { status := Status.OK, data := [], state := s, bus := bus1 }
    | none => { status := Status.BusFault, data := [], state := s, bus := bus }
  else
    { status := Status.UnsupportedOpcode, data := [], state := s, bus := bus }

/-- A bus driver with no cartridge behind it: every read gives the word 0 and
every write succeeds.  Used to run the dispatcher on concrete inputs. -/
def idle_bus : BusDriver Unit :=
  { rom_rd := fun _ _ => some (0, 0),
    wr_lo := fun _ _ _ => some (),
    wr_hi := fun _ _ _ => some (),
    flash_wr := fun _ _ _ => some (),
    sst_flash_wr := fun _ _ _ => some () }

/-- A bus driver that reports a failure on every access. -/
def faulty_bus : BusDriver Unit :=
  { rom_rd := fun _ _ => none,
    wr_lo := fun _ _ _ => none,
    wr_hi := fun _ _ _ => none,
    flash_wr := fun _ _ _ => none,
    sst_flash_wr := fun _ _ _ => none }

/-! ## Facts about the dictionary -/

theorem opcode_values_eq : opcode_values = [0, 1, 2, 3, 4, 5, 6] := rfl

theorem mem_opcode_values_iff (n : Nat) : n ∈ opcode_values ↔ n ≤ 6 := by
  rw [opcode_values_eq]
  simp only [List.mem_cons, List.mem_singleton, List.not_mem_nil, or_false]
  omega

/-- C1: the seven opcode constants have the values 0, 1, 2, 3, 4, 5, 6, in the
order GEN_SET_ADDR, GEN_ROM_RD, GEN_SET_BANK, GEN_WR_LO, GEN_WR_HI,
GEN_FLASH_WR_ADDROFF, GEN_SST_FLASH_WR_ADDROFF. -/
theorem opcode_constants_values :
    GEN_SET_ADDR = 0 ∧ GEN_ROM_RD = 1 ∧ GEN_SET_BANK = 2 ∧ GEN_WR_LO = 3 ∧
    GEN_WR_HI = 4 ∧ GEN_FLASH_WR_ADDROFF = 5 ∧ GEN_SST_FLASH_WR_ADDROFF = 6 :=
  ⟨rfl, rfl, rfl, rfl, rfl, rfl, rfl⟩

/-- C2: a natural number is the value of some opcode of the dictionary exactly
when it is at most 6; 7 is the value of no opcode, and each of 0..6 is the
value of one. -/
theorem opcode_set_is_closed_range :
    (∀ n : Nat, (∃ e ∈ sega_dictionary, e.2 = n) ↔ n ≤ 6) ∧
    (¬ ∃ e ∈ sega_dictionary, e.2 = 7) ∧
    (∀ n : Nat, n ≤ 6 → ∃ e ∈ sega_dictionary, e.2 = n) := by
  have key : ∀ n : Nat, (∃ e ∈ sega_dictionary, e.2 = n) ↔ n ≤ 6 := by
    intro n
    rw [← mem_opcode_values_iff n]
    simp [opcode_values]
  refine ⟨key, ?_, fun n hn => (key n).2 hn⟩
  rw [key 7]
  omega

/-- C3 (as stated, refuted): the dictionary does not define six opcode
constants. -/
theorem opcode_count_ne_six : sega_dictionary.length ≠ 6 := by
  decide

/-- C3 (amended): the dictionary defines exactly seven opcode constants, with
seven different names. -/
theorem opcode_count_eq_seven :
    sega_dictionary.length = 7 ∧ opcode_names.Nodup ∧ opcode_names.length = 7 := by
  refine ⟨rfl, ?_, rfl⟩
  simp [opcode_names, sega_dictionary]

/-- C4: the data opcodes have the values 1, 3, 4, 5, 6, the address-setting
opcodes the values 0, 2 (opcode 2 being GEN_SET_BANK); the two groups share no
value and together are exactly the values the dictionary defines. -/
theorem opcode_groups_partition :
    data_opcodes = [1, 3, 4, 5, 6] ∧
    address_setting_opcodes = [0, 2] ∧
    GEN_SET_BANK = 2 ∧
    (∀ n : Nat, ¬ (n ∈ data_opcodes ∧ n ∈ address_setting_opcodes)) ∧
    (∀ n : Nat, n ∈ opcode_values ↔ (n ∈ data_opcodes ∨ n ∈ address_setting_opcodes)) := by
  refine ⟨rfl, rfl, rfl, ?_, ?_⟩
  · intro n
    simp only [data_opcodes, address_setting_opcodes, GEN_ROM_RD, GEN_WR_LO, GEN_WR_HI,
      GEN_FLASH_WR_ADDROFF, GEN_SST_FLASH_WR_ADDROFF, GEN_SET_ADDR, GEN_SET_BANK,
      List.mem_cons, List.mem_singleton, List.not_mem_nil, or_false]
    omega
  · intro n
    rw [mem_opcode_values_iff]
    simp only [data_opcodes, address_setting_opcodes, GEN_ROM_RD, GEN_WR_LO, GEN_WR_HI,
      GEN_FLASH_WR_ADDROFF, GEN_SST_FLASH_WR_ADDROFF, GEN_SET_ADDR, GEN_SET_BANK,
      List.mem_cons, List.mem_singleton, List.not_mem_nil, or_false]
    omega

/-- C10: the opcode constants are pairwise distinct: two lines of the dictionary
with the same value are the same line, so a raw number is the value of at most
one named opcode. -/
theorem opcode_values_pairwise_distinct :
    opcode_values.Nodup ∧
    (∀ e₁ ∈ sega_dictionary, ∀ e₂ ∈ sega_dictionary, e₁.2 = e₂.2 → e₁ = e₂) := by
  refine ⟨by rw [opcode_values_eq]; decide, ?_⟩
  simp [sega_dictionary, GEN_ROM_RD, GEN_WR_LO, GEN_WR_HI,
      GEN_FLASH_WR_ADDROFF, GEN_SST_FLASH_WR_ADDROFF, GEN_SET_ADDR, GEN_SET_BANK]

/-! ## Facts about the Address/Bank State -/

theorem current_address_lt (s : AddressBankState) : current_address s < 2 ^ 24 := by
  simp only [current_address]
  omega

theorem bits_A1_A16_current_address (s : AddressBankState) :
    bits_A1_A16 (current_address s) = s.low % 2 ^ 16 := by
  simp only [bits_A1_A16, current_address]
  omega

theorem bits_A17_A23_current_address (s : AddressBankState) :
    bits_A17_A23 (current_address s) = s.high % 2 ^ 7 := by
  simp only [bits_A17_A23, current_address]
  omega

/-- C6: for every state and every 16-bit value `a`, after `set_low_address a`
(which is what dispatching GEN_SET_ADDR with operand `a` does to the state) the
current address has `a` in bits A1-A16 and its bits A17-A23 as before. -/
theorem set_low_address_frame (s : AddressBankState) (a : Nat) (ha : a < 2 ^ 16) :
    bits_A1_A16 (current_address (set_low_address s a)) = a ∧
    bits_A17_A23 (current_address (set_low_address s a)) =
      bits_A17_A23 (current_address s) ∧
    (∀ (β : Type) (drv : BusDriver β) (bus : β) (miscdata : Nat),
      (dispatch drv s bus GEN_SET_ADDR a miscdata).state = set_low_address s a ∧
      (dispatch drv s bus GEN_SET_ADDR a miscdata).status = Status.OK) := by
  refine ⟨?_, ?_, fun β drv bus miscdata => ⟨rfl, rfl⟩⟩
  · rw [bits_A1_A16_current_address]
    simp only [set_low_address]
    omega
  · rw [bits_A17_A23_current_address, bits_A17_A23_current_address]
    rfl

theorem set_low_address_frame_witness :
    (4660 : Nat) < 2 ^ 16 ∧
    bits_A1_A16 (current_address (set_low_address ⟨7, 513⟩ 4660)) = 4660 ∧
    bits_A17_A23 (current_address (set_low_address ⟨7, 513⟩ 4660)) =
      bits_A17_A23 (current_address ⟨7, 513⟩) ∧
    (∀ (β : Type) (drv : BusDriver β) (bus : β) (miscdata : Nat),
      (dispatch drv ⟨7, 513⟩ bus GEN_SET_ADDR 4660 miscdata).state =
        set_low_address ⟨7, 513⟩ 4660 ∧
      (dispatch drv ⟨7, 513⟩ bus GEN_SET_ADDR 4660 miscdata).status = Status.OK) :=
  ⟨by decide, set_low_address_frame ⟨7, 513⟩ 4660 (by decide)⟩

/-- C7: for every state and every 16-bit value `b`, `set_bank b` (which is what
dispatching GEN_SET_BANK with operand `b` does to the state) stores `b` in the
high half and changes nothing else: the low half, and with it bits A1-A16 of
the current address, are as before. -/
theorem set_bank_frame (s : AddressBankState) (b : Nat) (hb : b < 2 ^ 16) :
    (set_bank s b).high = b ∧
    (set_bank s b).low = s.low ∧
    bits_A1_A16 (current_address (set_bank s b)) = bits_A1_A16 (current_address s) ∧
    (∀ (β : Type) (drv : BusDriver β) (bus : β) (miscdata : Nat),
      (dispatch drv s bus GEN_SET_BANK b miscdata).state = set_bank s b ∧
      (dispatch drv s bus GEN_SET_BANK b miscdata).status = Status.OK) := by
  refine ⟨?_, rfl, ?_, fun β drv bus miscdata => ⟨rfl, rfl⟩⟩
  · simp only [set_bank]
    omega
  · rw [bits_A1_A16_current_address, bits_A1_A16_current_address]
    rfl

theorem set_bank_frame_witness :
    (385 : Nat) < 2 ^ 16 ∧
    (set_bank ⟨8192, 5⟩ 385).high = 385 ∧
    (set_bank ⟨8192, 5⟩ 385).low = (⟨8192, 5⟩ : AddressBankState).low ∧
    bits_A1_A16 (current_address (set_bank ⟨8192, 5⟩ 385)) =
      bits_A1_A16 (current_address ⟨8192, 5⟩) ∧
    (∀ (β : Type) (drv : BusDriver β) (bus : β) (miscdata : Nat),
      (dispatch drv ⟨8192, 5⟩ bus GEN_SET_BANK 385 miscdata).state = set_bank ⟨8192, 5⟩ 385 ∧
      (dispatch drv ⟨8192, 5⟩ bus GEN_SET_BANK 385 miscdata).status = Status.OK) :=
  ⟨by decide, set_bank_frame ⟨8192, 5⟩ 385 (by decide)⟩

/-! ## Facts about the dispatcher -/

/-- C8: for every state, operand and miscdata, dispatching an opcode value that
the dictionary does not define (one above 6, for example 7) returns
UnsupportedOpcode with no data, and leaves the state, hence the current
address, and the cartridge as they were. -/
theorem dispatch_unsupported_opcode {β : Type} (drv : BusDriver β) (s : AddressBankState)
    (bus : β) (opcode operand miscdata : Nat) (h : 6 < opcode) :
    (dispatch drv s bus opcode operand miscdata).status = Status.UnsupportedOpcode ∧
    (dispatch drv s bus opcode operand miscdata).data = [] ∧
    (dispatch drv s bus opcode operand miscdata).state = s ∧
    current_address (dispatch drv s bus opcode operand miscdata).state = current_address s ∧
    (dispatch drv s bus opcode operand miscdata).bus = bus := by
  have e : dispatch drv s bus opcode operand miscdata =
      { status := Status.UnsupportedOpcode, data := [], state := s, bus := bus } := by
    unfold dispatch
    simp only [GEN_SET_ADDR, GEN_ROM_RD, GEN_SET_BANK, GEN_WR_LO, GEN_WR_HI,
      GEN_FLASH_WR_ADDROFF, GEN_SST_FLASH_WR_ADDROFF]
    rw [if_neg (by omega), if_neg (by omega), if_neg (by omega), if_neg (by omega),
      if_neg (by omega), if_neg (by omega), if_neg (by omega)]
  rw [e]
  exact ⟨rfl, rfl, rfl, rfl, rfl⟩

theorem dispatch_unsupported_opcode_witness :
    6 < 7 ∧
    (dispatch idle_bus ⟨8192, 1⟩ () 7 4660 171).status = Status.UnsupportedOpcode ∧
    (dispatch idle_bus ⟨8192, 1⟩ () 7 4660 171).data = [] ∧
    (dispatch idle_bus ⟨8192, 1⟩ () 7 4660 171).state = ⟨8192, 1⟩ ∧
    current_address (dispatch idle_bus ⟨8192, 1⟩ () 7 4660 171).state =
      current_address ⟨8192, 1⟩ ∧
    (dispatch idle_bus ⟨8192, 1⟩ () 7 4660 171).bus = () :=
  ⟨by decide, dispatch_unsupported_opcode idle_bus ⟨8192, 1⟩ () 7 4660 171 (by decide)⟩

end Sega
